import Mathlib

/-!
Verification of the data-driven view state machine of the WorknAI frontend:
the catalog screen (`Home.tsx`) and the course-detail screen
(`CourseDetailPage`).  The TypeScript sources are shallowly embedded as
executable Lean definitions: React `useState` cells become fields of a
state structure, effect bodies and event handlers become state-transition
functions, and `useMemo` projections become pure functions of the owned
state.  JavaScript numbers are modelled exactly (rationals extended with
NaN and the two infinities); the concrete values appearing in the claims
are exactly representable as IEEE doubles, so the exact model agrees with
the runtime on every property proved here.
-/

namespace WorknAI

/-- Course status, the string union `"Online" | "Offline" | "Hybrid"`
from `Home.tsx` (`type CourseStatus`). -/
inductive CourseStatus where
  | Online
  | Offline
  | Hybrid
deriving DecidableEq, Repr

/-- Catalog filter, the string union `CourseStatus | "All"` from
`Home.tsx` (`type FilterType`). -/
inductive FilterType where
  | All
  | Online
  | Offline
  | Hybrid
deriving DecidableEq, Repr

/-- The string comparison `course.status === filter` compares the status
string with the filter string; this injection gives the filter value whose
string equals a given status string. -/
def statusToFilter : CourseStatus → FilterType
  | .Online => .Online
  | .Offline => .Offline
  | .Hybrid => .Hybrid

/-- The string rendered for a status (used by the technical-spec fallback,
where `value: course.status`). -/
def statusToString : CourseStatus → String
  | .Online => "Online"
  | .Offline => "Offline"
  | .Hybrid => "Hybrid"

/-- A catalog course summary (`Course` from `services/api`, fields per the
data model: id, name, status, createdAt, originalPrice, discountedPrice).
Prices are modelled as exact rationals. -/
structure Course where
  id : String
  name : String
  status : CourseStatus
  createdAt : Int
  originalPrice : ℚ
  discountedPrice : ℚ
deriving DecidableEq, Repr

/-- `Topic` leaf entity: `{ name: string }`. -/
structure Topic where
  name : String
deriving DecidableEq, Repr

/-- `Week`: `{ label, title, topics }`. -/
structure Week where
  label : String
  title : String
  topics : List Topic
deriving DecidableEq, Repr

/-- `SyllabusPhase`: `{ month, title, desc, weeks }`, ordered sequence. -/
structure SyllabusPhase where
  month : String
  title : String
  desc : String
  weeks : List Week
deriving DecidableEq, Repr

/-- `TechnicalSpec`: `{ label, value, icon }`. -/
structure TechnicalSpec where
  label : String
  value : String
  icon : String
deriving DecidableEq, Repr

/-- `CourseDetail`: superset of `Course`.  `technicalSpecs` and
`syllabusPhases` are `Option`s because the detail page accesses them
defensively (`course.technicalSpecs || [...]`,
`course.syllabusPhases?.length`), i.e. the runtime record may lack them. -/
structure CourseDetail where
  id : String
  name : String
  status : CourseStatus
  createdAt : Int
  originalPrice : ℚ
  discountedPrice : ℚ
  description : String
  language : String
  certificateImage : Option String
  technicalSpecs : Option (List TechnicalSpec)
  syllabusPhases : Option (List SyllabusPhase)
deriving DecidableEq, Repr

/-! ## Catalog filtering (`Home.tsx`, `filteredCourses` useMemo)

```ts
const filteredCourses = useMemo(() => {
  if (!Array.isArray(courses)) return [];
  if (filter === "All") return courses;
  return courses.filter((course) => course.status === filter);
}, [courses, filter]);
```

The `courses` argument is `Option (List Course)`: `none` models a source
value that is not an array (absent / not yet loaded at runtime). -/

/-- The memoized filtered projection of the catalog controller. -/
def filteredCourses (courses : Option (List Course)) (filter : FilterType) :
    List Course :=
  match courses with
  | none => []
  | some cs =>
      if filter = FilterType.All then cs
      else cs.filter (fun course => statusToFilter course.status == filter)

/-- The two filter predicates agree pointwise once the filter value is the
image of a status. -/
theorem statusToFilter_beq (s t : CourseStatus) :
    (statusToFilter s == statusToFilter t) = decide (s = t) := by
  cases s <;> cases t <;> rfl

/-- C2: `filteredCourses(L, All) = L`; for a concrete status filter the
result is exactly the order-preserving subsequence of `L` whose elements
have that status; and an absent source list yields the empty sequence for
every filter value.  Every non-`All` filter is `statusToFilter st` for
some status `st`, so the third through fifth conjuncts cover all of
`{Online, Offline, Hybrid}`. -/
theorem filteredCourses_correct (L : List Course) (st : CourseStatus) :
    (∀ f, filteredCourses none f = []) ∧
    filteredCourses (some L) FilterType.All = L ∧
    filteredCourses (some L) (statusToFilter st) =
      L.filter (fun c => decide (c.status = st)) ∧
    (filteredCourses (some L) (statusToFilter st)).Sublist L ∧
    (∀ c, c ∈ filteredCourses (some L) (statusToFilter st) ↔
      c ∈ L ∧ c.status = st) ∧
    (∀ f, f ≠ FilterType.All → ∃ s, f = statusToFilter s) := by
  have hAll : statusToFilter st ≠ FilterType.All := by cases st <;> simp [statusToFilter]
  have hfilter : filteredCourses (some L) (statusToFilter st) =
      L.filter (fun c => decide (c.status = st)) := by
    simp only [filteredCourses, if_neg hAll]
    exact List.filter_congr (fun c _ => statusToFilter_beq c.status st)
  refine ⟨fun f => rfl, by simp [filteredCourses], hfilter, ?_, ?_, ?_⟩
  · rw [hfilter]; exact List.filter_sublist L
  · intro c
    rw [hfilter]
    simp [List.mem_filter]
  · intro f hf
    cases f with
    | All => exact absurd rfl hf
    | Online => exact ⟨CourseStatus.Online, rfl⟩
    | Offline => exact ⟨CourseStatus.Offline, rfl⟩
    | Hybrid => exact ⟨CourseStatus.Hybrid, rfl⟩

/-! ## JavaScript number model for the discount computation

`discountPercent` computes
`Math.round(((originalPrice - discountedPrice) / originalPrice) * 100)`.
JavaScript division by zero yields `Infinity` / `-Infinity` / `NaN`
rather than throwing, so the number model is a rational extended with
those three non-finite values.  Every concrete value in the claims
(1000, 750, 0, 100, the quotient 0.25) is exactly representable as an
IEEE double, so exact rational arithmetic agrees with the runtime on the
operations modelled here. -/

/-- A JavaScript number: a finite (exact) value, `NaN`, `Infinity` or
`-Infinity`.  The sign of zero is not tracked (no claim observes it). -/
inductive JsNum where
  | fin (q : ℚ)
  | nan
  | inf
  | ninf
deriving DecidableEq, Repr

/-- JavaScript division.  `0 / 0 = NaN`; a non-zero finite value divided
by zero is a signed infinity. -/
def jsDiv : JsNum → JsNum → JsNum
  | .nan, _ => .nan
  | _, .nan => .nan
  | .fin a, .fin b =>
      if b = 0 then
        if a = 0 then .nan else if a > 0 then .inf else .ninf
      else .fin (a / b)
  | .inf, .fin b => if b < 0 then .ninf else .inf
  | .ninf, .fin b => if b < 0 then .inf else .ninf
  | .fin _, .inf => .fin 0
  | .fin _, .ninf => .fin 0
  | .inf, .inf => .nan
  | .inf, .ninf => .nan
  | .ninf, .inf => .nan
  | .ninf, .ninf => .nan

/-- JavaScript multiplication.  `Infinity * 0 = NaN`. -/
def jsMul : JsNum → JsNum → JsNum
  | .nan, _ => .nan
  | _, .nan => .nan
  | .fin a, .fin b => .fin (a * b)
  | .inf, .fin b => if b = 0 then .nan else if b > 0 then .inf else .ninf
  | .fin a, .inf => if a = 0 then .nan else if a > 0 then .inf else .ninf
  | .ninf, .fin b => if b = 0 then .nan else if b > 0 then .ninf else .inf
  | .fin a, .ninf => if a = 0 then .nan else if a > 0 then .ninf else .inf
  | .inf, .inf => .inf
  | .inf, .ninf => .ninf
  | .ninf, .inf => .ninf
  | .ninf, .ninf => .inf

/-- `Math.round`: half-up (towards positive infinity) on finite values,
identity on `NaN` and the infinities. -/
def jsRound : JsNum → JsNum
  | .fin q => .fin ((⌊q + 1 / 2⌋ : ℤ) : ℚ)
  | x => x

/-! ## Detail-page derived projections (`CourseDetailPage` useMemos) -/

/-- `WEEKS_PER_PHASE` constant of the detail page. -/
def WEEKS_PER_PHASE : Nat := 4

/-- Fallback error message of the detail fetch
(`"Failed to load course data. Please try again later."`), used when the
caught value is not an `Error` carrying a message. -/
def detailErrFallback : String :=
  "Failed to load course data. Please try again later."

/--
```ts
const discountPercent = useMemo(() => {
  if (!course) return 0;
  return Math.round(
    ((course.originalPrice - course.discountedPrice) / course.originalPrice) * 100
  );
}, [course]);
```
-/
def discountPercent (course : Option CourseDetail) : JsNum :=
  match course with
  | none => .fin 0
  | some c =>
      jsRound (jsMul
        (jsDiv (.fin (c.originalPrice - c.discountedPrice)) (.fin c.originalPrice))
        (.fin 100))

/-- Icon path string of the fallback Duration spec. -/
def durationIcon : String :=
  "M12 6v6h4.5m4.5 0a9 9 0 1 1-18 0 9 9 0 0 1 18 0Z"

/-- Icon path string of the fallback Mode spec. -/
def modeIcon : String :=
  "M9 17.25v1.007a3 3 0 0 1-.879 2.122L7.5 21h9l-.621-.621A3 3 0 0 1 15 18.257V17.25m6-12V15a2.25 2.25 0 0 1-2.25 2.25H5.25A2.25 2.25 0 0 1 3 15V5.25m18 0A2.25 2.25 0 0 0 18.75 3H5.25A2.25 2.25 0 0 0 3 5.25m18 0V12a2.25 2.25 0 0 1-2.25 2.25H5.25A2.25 2.25 0 0 1 3 12V5.25"

/-- Icon path string of the fallback Language spec. -/
def languageIcon : String :=
  "M10.5 21l5.25-11.25L21 21m-9-3h7.5M3 5.621a48.474 48.474 0 0 1 6-.371m0 0c1.12 0 2.233.038 3.334.114M9 5.25V3m3.334 2.364C11.176 10.658 7.69 15.08 3 17.502m9.334-12.138c.896.061 1.785.147 2.666.257m-4.589 8.495a18.023 18.023 0 0 1-3.827-5.802"

/-- `course.syllabusPhases?.length || 6`: the optional-chained length with
`0` (falsy) and `undefined` both replaced by `6`. -/
def phaseLenOrSix (c : CourseDetail) : Nat :=
  match c.syllabusPhases with
  | none => 6
  | some l => if l.length = 0 then 6 else l.length

/-- The fallback triple of the `technicalSpecs` useMemo, in source order:
Duration, Mode, Language. -/
def fallbackSpecs (c : CourseDetail) : List TechnicalSpec :=
  [ { label := "Duration"
    , value := toString (phaseLenOrSix c) ++ " Months"
    , icon := durationIcon }
  , { label := "Mode"
    , value := statusToString c.status
    , icon := modeIcon }
  , { label := "Language"
    , value := c.language
    , icon := languageIcon } ]

/--
```ts
const technicalSpecs = useMemo((): TechnicalSpec[] => {
  if (!course) return [];
  return course.technicalSpecs || [ ...fallback triple... ];
}, [course]);
```
JavaScript `||` tests truthiness: `undefined` selects the fallback, but
any array — including the empty array — is truthy and is returned as is.
`Option.getD` reproduces exactly that. -/
def technicalSpecsProj (course : Option CourseDetail) : List TechnicalSpec :=
  match course with
  | none => []
  | some c => c.technicalSpecs.getD (fallbackSpecs c)

/-- `course?.syllabusPhases || []`. -/
def syllabusPhasesProj (course : Option CourseDetail) : List SyllabusPhase :=
  match course with
  | none => []
  | some c => c.syllabusPhases.getD []

/-- `totalWeeks = syllabusPhases.length * WEEKS_PER_PHASE`. -/
def totalWeeks (course : Option CourseDetail) : Nat :=
  (syllabusPhasesProj course).length * WEEKS_PER_PHASE

/-- `courseNameParts`: `course.name.split(" ")`, empty when no course. -/
def courseNameParts (course : Option CourseDetail) : List String :=
  match course with
  | none => []
  | some c => c.name.splitOn " "

/-! ## Detail controller state machine (`CourseDetailPage`)

The component's `useState` cells plus the lifecycle bookkeeping of the
`useEffect` with dependency `[id]`:

* every effect run closes over its own `let isMounted = true`, and the
  cleanup of that run sets it to `false`; React runs the cleanup both
  when `id` changes (before the next run) and on unmount.  Hence the
  flag of effect run `g` reads `true` at completion time iff no later
  run has started (`g` is the current generation) and the component is
  still mounted.  `curGen` numbers the effect runs and `alive` records
  mountedness; the per-closure flag is exactly `alive ∧ g = curGen`.
* `gatewayCalls` logs every `coursesApi.getCourseById(id)` invocation,
  so "the gateway is never called" is observable in the model. -/

/-- State of one `CourseDetailPage` instance. -/
structure DetailCtrl where
  activePhase : Int
  course : Option CourseDetail
  loading : Bool
  error : Option String
  curGen : Nat
  alive : Bool
  gatewayCalls : List String
deriving DecidableEq, Repr

/-- Completion of the fetch of one effect run: the promise resolved with
the response body (possibly absent), or rejected with an error that may
or may not carry a message. -/
inductive FetchOutcome where
  | ok (data : Option CourseDetail)
  | err (msg : Option String)
deriving DecidableEq, Repr

/-- JavaScript truthiness of the optional route param `id`: `undefined`
and the empty string are falsy. -/
def idTruthy : Option String → Bool
  | none => false
  | some s => !s.isEmpty

/-- One run of the `[id]` effect.  The previous run's cleanup has set its
`isMounted` to false (modelled by bumping `curGen`).  With a truthy `id`,
`fetchCourse` starts: `setLoading(true); setError(null);` run
synchronously, then `getCourseById(id)` is invoked (logged) and the run
suspends.  With a falsy `id` the else branch runs:
`setError("Course ID is missing"); setLoading(false);` and no fetch is
issued. -/
def runEffect (c : DetailCtrl) (id : Option String) : DetailCtrl :=
  let c' := { c with curGen := c.curGen + 1 }
  if idTruthy id then
    { c' with loading := true, error := none,
              gatewayCalls := c'.gatewayCalls ++ [id.getD ""] }
  else
    { c' with error := some "Course ID is missing", loading := false }

/-- Completion of the fetch issued by effect run `g`.  Each guarded write
(`if (!isMounted) return;` before `setCourse` / `setError`, and
`if (isMounted)` around the final `setLoading(false)`) reads the closure
flag, which is `alive ∧ g = curGen`; a stale or torn-down run changes
nothing.  The function is total: a discarded completion is a silent
no-op, never an exception. -/
def complete (c : DetailCtrl) (g : Nat) (o : FetchOutcome) : DetailCtrl :=
  if c.alive = true ∧ g = c.curGen then
    match o with
    | .ok data => { c with course := data, loading := false }
    | .err m => { c with error := some (m.getD detailErrFallback), loading := false }
  else c

/-- Effect cleanup on unmount: the current closure's `isMounted := false`. -/
def unmountD (c : DetailCtrl) : DetailCtrl :=
  { c with alive := false }

/-- The phase-header click handler: `onClick={() => setActivePhase(i)}`.
The setter stores the index unguarded; the rendered buttons only supply
`0 ≤ i < syllabusPhases.length`. -/
def selectPhase (c : DetailCtrl) (i : Int) : DetailCtrl :=
  { c with activePhase := i }

/-- The `useState` initial values of `CourseDetailPage`:
`activePhase = 0`, `course = null`, `loading = true`, `error = null`,
mounted, no effect run yet. -/
def initialDetail : DetailCtrl :=
  { activePhase := 0
  , course := none
  , loading := true
  , error := none
  , curGen := 0
  , alive := true
  , gatewayCalls := [] }

/-- Mounting the page with route param `id`: the initial state followed by
the first run of the `[id]` effect. -/
def mountD (id : Option String) : DetailCtrl :=
  runEffect initialDetail id

/-- The phase list the render reads (`syllabusPhases` useMemo applied to
the owned course). -/
def phasesOf (c : DetailCtrl) : List SyllabusPhase :=
  syllabusPhasesProj c.course

/-- The phase record the syllabus body dereferences,
`syllabusPhases[activePhase]`: `none` models the JavaScript `undefined`
of an out-of-range subscript. -/
def phaseAt (c : DetailCtrl) : Option SyllabusPhase :=
  if c.activePhase < 0 then none
  else (phasesOf c).get? c.activePhase.toNat

/-- JavaScript truthiness of the `error` state cell (a `string | null`):
`null` and the empty string are falsy. -/
def errTruthy : Option String → Bool
  | none => false
  | some s => !s.isEmpty

/-- The four top-level render outcomes of `CourseDetailPage`. -/
inductive DetailView where
  | loadingView
  | errorView (msg : String)
  | notFoundView
  | contentView (c : CourseDetail)
deriving DecidableEq, Repr

/-- The render guards, in source order: `if (loading)` spinner;
`if (error)` error screen; `if (!course)` COURSE_NOT_FOUND; otherwise the
course content. -/
def renderDetail (s : DetailCtrl) : DetailView :=
  if s.loading then .loadingView
  else if errTruthy s.error then .errorView (s.error.getD "")
  else
    match s.course with
    | none => .notFoundView
    | some c => .contentView c

/-! ## Home (catalog) fetch machine (`Home.tsx`)

Same `isMounted` pattern, but the effect has dependency `[]`: it runs
once per instance, so no generation counter is needed — the closure flag
is simply `alive`. -/

/-- State of one `Home` instance (the `useState` cells that belong to the
core, plus mountedness). -/
structure HomeCtrl where
  courses : List Course
  loading : Bool
  error : String
  filter : FilterType
  alive : Bool
deriving DecidableEq, Repr

/-- Completion of the `getAllCourses` fetch: resolved with the course
list or rejected with an optional message. -/
inductive HomeOutcome where
  | ok (data : List Course)
  | err (msg : Option String)
deriving DecidableEq, Repr

/-- The `useState` initial values of `Home`, with the fetch already
issued (`fetchCourses()` runs `setLoading(true); setError("");` before
awaiting). -/
def initialHome : HomeCtrl :=
  { courses := []
  , loading := true
  , error := ""
  , filter := FilterType.All
  , alive := true }

/-- Completion of the Home fetch: every write is guarded by
`if (isMounted)`. -/
def completeHome (h : HomeCtrl) (o : HomeOutcome) : HomeCtrl :=
  if h.alive = true then
    match o with
    | .ok data => { h with courses := data, loading := false }
    | .err m => { h with error := m.getD "Failed to fetch courses", loading := false }
  else h

/-- Home effect cleanup on unmount. -/
def unmountH (h : HomeCtrl) : HomeCtrl :=
  { h with alive := false }

/-! ## Concrete fixtures used by counterexamples and witnesses -/

/-- A sample topic. -/
def topicState : Topic := { name := "State machines" }

/-- A sample week. -/
def weekOne : Week := { label := "W1", title := "Intro", topics := [topicState] }

/-- First sample syllabus phase. -/
def phaseJan : SyllabusPhase :=
  { month := "Jan", title := "Foundations", desc := "Basics", weeks := [weekOne] }

/-- Second sample syllabus phase. -/
def phaseFeb : SyllabusPhase :=
  { month := "Feb", title := "Systems", desc := "Deeper", weeks := [weekOne] }

/-- Sample phase of a second course. -/
def phaseMar : SyllabusPhase :=
  { month := "Mar", title := "Solo", desc := "Single", weeks := [weekOne] }

/-- A detail record with the spec's discount example prices. -/
def courseStandard : CourseDetail :=
  { id := "a", name := "Course A", status := CourseStatus.Online, createdAt := 0
  , originalPrice := 1000, discountedPrice := 750, description := "d"
  , language := "English", certificateImage := none, technicalSpecs := none
  , syllabusPhases := some [phaseJan, phaseFeb] }

/-- A detail record whose `originalPrice` is zero (its `discountedPrice`
is zero too, the only value the data-model invariant permits). -/
def courseZeroPrice : CourseDetail :=
  { id := "z", name := "Zero", status := CourseStatus.Online, createdAt := 0
  , originalPrice := 0, discountedPrice := 0, description := ""
  , language := "English", certificateImage := none, technicalSpecs := none
  , syllabusPhases := none }

/-- A detail record carrying a present-but-empty `technicalSpecs` list. -/
def courseEmptySpecs : CourseDetail :=
  { id := "e", name := "Empty Specs", status := CourseStatus.Offline, createdAt := 0
  , originalPrice := 500, discountedPrice := 500, description := ""
  , language := "Hindi", certificateImage := none, technicalSpecs := some []
  , syllabusPhases := some [phaseJan] }

/-- A detail record with no `technicalSpecs` field at all. -/
def courseNoSpecs : CourseDetail :=
  { id := "n", name := "No Specs", status := CourseStatus.Hybrid, createdAt := 0
  , originalPrice := 500, discountedPrice := 400, description := ""
  , language := "English", certificateImage := none, technicalSpecs := none
  , syllabusPhases := none }

/-- A second detail record, with a single syllabus phase. -/
def courseSingle : CourseDetail :=
  { id := "b", name := "Course B", status := CourseStatus.Hybrid, createdAt := 1
  , originalPrice := 800, discountedPrice := 800, description := ""
  , language := "English", certificateImage := none, technicalSpecs := none
  , syllabusPhases := some [phaseMar] }

/-- A sample catalog course with status Online. -/
def courseOnline : Course :=
  { id := "h1", name := "React Basics", status := CourseStatus.Online
  , createdAt := 5, originalPrice := 1000, discountedPrice := 750 }

/-- A sample catalog course with status Offline. -/
def courseOffline : Course :=
  { id := "h2", name := "Java Lab", status := CourseStatus.Offline
  , createdAt := 4, originalPrice := 800, discountedPrice := 800 }

/-! ## Helper lemmas about the detail machine -/

/-- A completion whose generation is not the current one changes nothing
(the closure's `isMounted` is false). -/
theorem complete_stale (c : DetailCtrl) (g : Nat) (o : FetchOutcome)
    (h : g ≠ c.curGen) : complete c g o = c := by
  simp [complete, h]

/-- `complete` never changes the generation counter. -/
theorem complete_curGen (c : DetailCtrl) (g : Nat) (o : FetchOutcome) :
    (complete c g o).curGen = c.curGen := by
  unfold complete
  split
  · cases o <;> rfl
  · rfl

/-- Each effect run increments the generation counter, in both the fetch
branch and the missing-id branch. -/
theorem runEffect_curGen (c : DetailCtrl) (id : Option String) :
    (runEffect c id).curGen = c.curGen + 1 := by
  unfold runEffect
  split <;> rfl

/-! ## Claim theorems -/

/-- C1: only the most recently issued fetch's completion mutates visible
state.  First conjunct: a completion carrying any generation other than
the current one is the identity on the controller.  Second conjunct: in
the two-fetch race — fetch A issued, then fetch B issued, B's completion
arrives, then A's late completion arrives — the final state is exactly
B's resulting state. -/
theorem only_latest_completion_mutates (c : DetailCtrl) (g : Nat)
    (o : FetchOutcome) (a b : Option String) (oA oB : FetchOutcome)
    (hg : g ≠ c.curGen) :
    complete c g o = c ∧
    complete
        (complete (runEffect (runEffect c a) b)
          (runEffect (runEffect c a) b).curGen oB)
        (runEffect c a).curGen oA
      = complete (runEffect (runEffect c a) b)
          (runEffect (runEffect c a) b).curGen oB := by
  refine ⟨complete_stale c g o hg, ?_⟩
  apply complete_stale
  rw [complete_curGen, runEffect_curGen, runEffect_curGen, runEffect_curGen]
  omega

/-- Witness for C1: a concrete stale completion is discarded. -/
theorem only_latest_completion_mutates_witness :
    5 ≠ initialDetail.curGen ∧
    complete initialDetail 5 (FetchOutcome.ok none) = initialDetail :=
  ⟨by decide,
   (only_latest_completion_mutates initialDetail 5 (FetchOutcome.ok none)
     (some "a") (some "b") (FetchOutcome.ok none) (FetchOutcome.ok none)
     (by decide)).1⟩

/-- C3: resolving or rejecting any generation after teardown changes
nothing on either controller; both completion functions are total, so no
exception is raised — the completion is a silent no-op. -/
theorem completion_after_teardown (c : DetailCtrl) (g : Nat)
    (o : FetchOutcome) (h : HomeCtrl) (oH : HomeOutcome) :
    complete (unmountD c) g o = unmountD c ∧
    completeHome (unmountH h) oH = unmountH h := by
  constructor
  · simp [complete, unmountD]
  · simp [completeHome, unmountH]

/-- C10: with no course record loaded, every derived projection returns
its fixed empty default: discount 0, no specs, no phases, zero weeks, no
name parts. -/
theorem projections_default_when_no_course :
    discountPercent none = JsNum.fin 0 ∧
    technicalSpecsProj none = [] ∧
    syllabusPhasesProj none = [] ∧
    totalWeeks none = 0 ∧
    courseNameParts none = [] :=
  ⟨rfl, rfl, rfl, rfl, rfl⟩

/-- C7 counterexample: mounting with an absent id sets the error message
`"Course ID is missing"` — not the claimed `"Course ID is required"`
(that string sits in an unreachable branch of `fetchCourse`, which is
only invoked for truthy ids).  The gateway is indeed never called. -/
theorem load_missing_id_message_cex :
    (mountD none).error = some "Course ID is missing" ∧
    (mountD none).gatewayCalls = [] ∧
    (mountD none).error ≠ some "Course ID is required" := by
  decide

/-- C7 amended: with an absent or empty id the controller fails fast with
the local validation error `Failure("Course ID is missing")`, without
calling the gateway; with a non-empty id it calls `getCourseById(id)`
under a fresh running fetch. -/
theorem load_validation_amended (c : DetailCtrl) (s : String) (hs : s ≠ "") :
    (runEffect c none).error = some "Course ID is missing" ∧
    (runEffect c none).loading = false ∧
    (runEffect c none).gatewayCalls = c.gatewayCalls ∧
    (runEffect c (some "")).error = some "Course ID is missing" ∧
    (runEffect c (some "")).gatewayCalls = c.gatewayCalls ∧
    (runEffect c (some s)).gatewayCalls = c.gatewayCalls ++ [s] ∧
    (runEffect c (some s)).loading = true ∧
    (runEffect c (some s)).error = none := by
  have hs' : s.isEmpty = false := by
    rcases hB : s.isEmpty with _ | _
    · rfl
    · exact absurd ((String.isEmpty_iff s).mp hB) hs
  have he : ("" : String).isEmpty = true := rfl
  simp [runEffect, idTruthy, hs', he]

/-- Witness for C7's amended claim at a concrete controller and id. -/
theorem load_validation_amended_witness :
    ("c1" : String) ≠ "" ∧
    (runEffect initialDetail none).error = some "Course ID is missing" ∧
    (runEffect initialDetail (some "c1")).gatewayCalls = ["c1"] := by
  have h := load_validation_amended initialDetail "c1" (by decide)
  exact ⟨by decide, h.1, by rw [h.2.2.2.2.2.1]; rfl⟩

/-- Witness for C2 at a concrete two-course list: the Online filter keeps
exactly the Online course and All keeps everything. -/
theorem filteredCourses_correct_witness :
    filteredCourses (some [courseOnline, courseOffline])
      (statusToFilter CourseStatus.Online) = [courseOnline] ∧
    filteredCourses (some [courseOnline, courseOffline]) FilterType.All
      = [courseOnline, courseOffline] := by
  have h := filteredCourses_correct [courseOnline, courseOffline] CourseStatus.Online
  refine ⟨?_, h.2.1⟩
  rw [h.2.2.1]
  decide

/-- C4 counterexample: with a loaded course whose `originalPrice` is `0`
(and `discountedPrice` `0`, the only value the invariant allows), the
code divides by zero: `(0 - 0) / 0` is JavaScript `NaN`, so
`discountPercent` is `NaN`, not the claimed `0`. -/
theorem discountPercent_zero_original_cex :
    discountPercent (some courseZeroPrice) = JsNum.nan ∧
    JsNum.nan ≠ JsNum.fin 0 := by
  constructor
  · simp [discountPercent, courseZeroPrice, jsDiv, jsMul, jsRound]
  · simp

/-- C4 amended: for a loaded course with non-zero `originalPrice`,
`discountPercent` is the half-up rounding of
`(originalPrice - discountedPrice) / originalPrice * 100`, and it is
nonnegative whenever `discountedPrice ≤ originalPrice` and
`originalPrice` is positive; with no course loaded it is `0`.  When
`originalPrice = 0` the division yields a non-finite value (`NaN`), not
`0` — there the original claim fails. -/
theorem discountPercent_amended (c : CourseDetail)
    (h : c.originalPrice ≠ 0) :
    discountPercent (some c) =
      JsNum.fin
        ((⌊(c.originalPrice - c.discountedPrice) / c.originalPrice * 100 + 1 / 2⌋ : ℤ) : ℚ) ∧
    (c.discountedPrice ≤ c.originalPrice → 0 < c.originalPrice →
      0 ≤ (⌊(c.originalPrice - c.discountedPrice) / c.originalPrice * 100 + 1 / 2⌋ : ℤ)) ∧
    discountPercent none = JsNum.fin 0 := by
  refine ⟨?_, ?_, rfl⟩
  · simp [discountPercent, jsDiv, jsMul, jsRound, h]
  · intro hd hpos
    have h1 : (0 : ℚ) ≤ (c.originalPrice - c.discountedPrice) / c.originalPrice :=
      div_nonneg (by linarith) (le_of_lt hpos)
    have hx : (0 : ℚ) ≤
        (c.originalPrice - c.discountedPrice) / c.originalPrice * 100 + 1 / 2 := by
      nlinarith
    exact Int.floor_nonneg.mpr hx

/-- Witness for C4's amended claim: the spec's own example,
`originalPrice = 1000, discountedPrice = 750 ⇒ discountPercent = 25`. -/
theorem discountPercent_amended_witness :
    courseStandard.originalPrice ≠ 0 ∧
    discountPercent (some courseStandard) = JsNum.fin 25 := by
  have h0 : courseStandard.originalPrice ≠ 0 := by norm_num [courseStandard]
  refine ⟨h0, ?_⟩
  rw [(discountPercent_amended courseStandard h0).1]
  have hq : (courseStandard.originalPrice - courseStandard.discountedPrice) /
      courseStandard.originalPrice * 100 + 1 / 2 = (51 / 2 : ℚ) := by
    norm_num [courseStandard]
  have hfl : (⌊(courseStandard.originalPrice - courseStandard.discountedPrice) /
      courseStandard.originalPrice * 100 + 1 / 2⌋ : ℤ) = 25 := by
    rw [hq, Int.floor_eq_iff]
    norm_num
  rw [hfl]
  norm_num

/-- The composite "issue a load for id `s`, then let that very load
complete with outcome `o`". -/
def afterLoad (c : DetailCtrl) (s : String) (o : FetchOutcome) : DetailCtrl :=
  complete (runEffect c (some s)) (runEffect c (some s)).curGen o

/-- C8: a successful fetch that yields no record settles the controller
in the not-found terminal state (`course = none`, `error = none`, not
loading), rendered as COURSE_NOT_FOUND; a rejected fetch settles it in
the failure state carrying the (fallback-completed) message, a different
state, rendered as the error screen whenever the message is non-empty
(every real message and the fixed fallback are non-empty). -/
theorem notFound_distinct_from_failure (c : DetailCtrl) (s : String)
    (mo : Option String) (hAlive : c.alive = true) (hs : s ≠ "") :
    (afterLoad c s (FetchOutcome.ok none)).course = none ∧
    (afterLoad c s (FetchOutcome.ok none)).error = none ∧
    renderDetail (afterLoad c s (FetchOutcome.ok none)) = DetailView.notFoundView ∧
    (afterLoad c s (FetchOutcome.err mo)).error = some (mo.getD detailErrFallback) ∧
    afterLoad c s (FetchOutcome.ok none) ≠ afterLoad c s (FetchOutcome.err mo) ∧
    ((mo.getD detailErrFallback).isEmpty = false →
      renderDetail (afterLoad c s (FetchOutcome.err mo))
        = DetailView.errorView (mo.getD detailErrFallback)) := by
  have hs' : s.isEmpty = false := by
    rcases hB : s.isEmpty with _ | _
    · rfl
    · exact absurd ((String.isEmpty_iff s).mp hB) hs
  have hok : afterLoad c s (FetchOutcome.ok none) =
      { c with curGen := c.curGen + 1, loading := false, error := none
             , course := none, gatewayCalls := c.gatewayCalls ++ [s] } := by
    simp [afterLoad, runEffect, complete, idTruthy, hs', hAlive]
  have herr : afterLoad c s (FetchOutcome.err mo) =
      { c with curGen := c.curGen + 1, loading := false
             , error := some (mo.getD detailErrFallback)
             , gatewayCalls := c.gatewayCalls ++ [s] } := by
    simp [afterLoad, runEffect, complete, idTruthy, hs', hAlive]
  refine ⟨by rw [hok], by rw [hok], ?_, by rw [herr], ?_, ?_⟩
  · rw [hok]; simp [renderDetail, errTruthy]
  · intro hcontra
    have : (afterLoad c s (FetchOutcome.ok none)).error
        = (afterLoad c s (FetchOutcome.err mo)).error := by rw [hcontra]
    rw [hok, herr] at this
    simp at this
  · intro hmsg
    rw [herr]
    simp [renderDetail, errTruthy, hmsg]

/-- Witness for C8 at a concrete mounted controller, id and outcome. -/
theorem notFound_distinct_from_failure_witness :
    initialDetail.alive = true ∧ ("c8" : String) ≠ "" ∧
    renderDetail (afterLoad initialDetail "c8" (FetchOutcome.ok none))
      = DetailView.notFoundView ∧
    afterLoad initialDetail "c8" (FetchOutcome.ok none)
      ≠ afterLoad initialDetail "c8" (FetchOutcome.err none) := by
  have h := notFound_distinct_from_failure initialDetail "c8" none rfl (by decide)
  exact ⟨rfl, by decide, h.2.2.1, h.2.2.2.2.1⟩

/-- C5 counterexample: the invariant "ActivePhaseIndex is always in
`[0, phaseCount)`" fails at a reachable state.  Immediately after mount
(course not yet loaded) the index is `0` while `phaseCount = 0`, so the
index is not below the phase count. -/
theorem phase_index_invariant_cex :
    (mountD (some "c5")).activePhase = 0 ∧
    (phasesOf (mountD (some "c5"))).length = 0 ∧
    ¬ ((mountD (some "c5")).activePhase <
        ((phasesOf (mountD (some "c5"))).length : Int)) := by
  decide

/-- The phase indices reachable through the navigator UI over a fixed
list of `P` phases: the initial index is `0`, and the rendered phase
headers (`syllabusPhases.map((phase, i) => ...)`) only issue clicks for
`0 ≤ i < P`. -/
inductive NavReach (P : Nat) : Int → Prop where
  | init : NavReach P 0
  | click (a i : Int) : NavReach P a → 0 ≤ i → i < (P : Int) → NavReach P i

/-- C5 amended: a click carries an index of an existing phase header
(`0 ≤ i < P`) and stores exactly that index; the stored index is applied
by the raw state setter, which changes nothing else of the controller
state; over a fixed phase list every UI-reachable index is nonnegative,
equals `0` when there are no phases, and is below `P` when `P > 0`.
(The original claim's unrestricted in-range/out-of-range `select(i)` does
not exist in the code — the setter is unguarded and only rendered
headers call it — and the interval invariant fails when `phaseCount = 0`
and after a course change, per the counterexample and C6.) -/
theorem phase_select_amended (P : Nat) (a : Int) (h : NavReach P a) :
    (0 ≤ a ∧ (P = 0 → a = 0) ∧ (0 < P → a < (P : Int))) ∧
    ∀ (c : DetailCtrl) (i : Int),
      (selectPhase c i).activePhase = i ∧
      (selectPhase c i).course = c.course ∧
      (selectPhase c i).loading = c.loading ∧
      (selectPhase c i).error = c.error ∧
      (selectPhase c i).gatewayCalls = c.gatewayCalls ∧
      (selectPhase c i).curGen = c.curGen ∧
      (selectPhase c i).alive = c.alive := by
  refine ⟨?_, fun c i => ⟨rfl, rfl, rfl, rfl, rfl, rfl, rfl⟩⟩
  induction h with
  | init =>
      refine ⟨le_refl 0, fun _ => rfl, fun hP => ?_⟩
      exact_mod_cast hP
  | click a i ha h0 hi ih =>
      exact ⟨h0, fun hP => by omega, fun _ => hi⟩

/-- Witness for C5's amended claim: the index `1` reached by clicking the
second of two phase headers. -/
theorem phase_select_amended_witness :
    ((0 : Int) ≤ 1 ∧ ((2 : Nat) = 0 → (1 : Int) = 0) ∧
      (0 < (2 : Nat) → (1 : Int) < ((2 : Nat) : Int))) ∧
    (selectPhase initialDetail 1).activePhase = 1 :=
  ⟨(phase_select_amended 2 1
      (NavReach.click 0 1 NavReach.init (by omega) (by omega))).1,
   ((phase_select_amended 2 1
      (NavReach.click 0 1 NavReach.init (by omega) (by omega))).2
      initialDetail 1).1⟩

/-- The course-change trace of C6: mount on course `a` (two phases),
resolve it, click phase header `1`, change the route id to course `b`
(one phase), resolve the new fetch. -/
def courseChangeTrace : DetailCtrl :=
  let s1 := complete (mountD (some "a")) (mountD (some "a")).curGen
    (FetchOutcome.ok (some courseStandard))
  let s2 := selectPhase s1 1
  let s3 := runEffect s2 (some "b")
  complete s3 s3.curGen (FetchOutcome.ok (some courseSingle))

/-- C6: the code does NOT reset `ActivePhaseIndex` on a course change.
After selecting phase `1` of the two-phase course and loading the
one-phase course, the index is still `1`, the new phase list has length
`1`, and the syllabus body's subscript `syllabusPhases[activePhase]`
dereferences a missing element (JavaScript `undefined`, whose `.title`
access throws).  `useState<number>(0)` only seeds the initial mount and
the `[id]` effect never calls `setActivePhase`. -/
theorem activePhase_not_reset_on_course_change :
    courseChangeTrace.activePhase = 1 ∧
    courseChangeTrace.course = some courseSingle ∧
    (phasesOf courseChangeTrace).length = 1 ∧
    phaseAt courseChangeTrace = none := by
  refine ⟨rfl, ?_, rfl, rfl⟩
  rfl

/-- C9 counterexample: for a course whose `technicalSpecs` field is a
present-but-empty list, the code returns the empty list — JavaScript
`||` treats `[]` as truthy — while the claim demands the synthesized
fallback triple. -/
theorem technicalSpecs_empty_list_cex :
    courseEmptySpecs.technicalSpecs = some [] ∧
    technicalSpecsProj (some courseEmptySpecs) = [] ∧
    fallbackSpecs courseEmptySpecs ≠ [] ∧
    technicalSpecsProj (some courseEmptySpecs) ≠ fallbackSpecs courseEmptySpecs := by
  refine ⟨rfl, rfl, ?_, ?_⟩
  · intro h
    exact List.cons_ne_nil _ _ h
  · intro h
    exact (List.cons_ne_nil _ _ h.symm)

/-- C9 amended: `technicalSpecs` is the record's own list whenever the
field is present — including the empty list — and is the deterministic
fallback triple (Duration from `syllabusPhases.length` with `0`/absent
defaulted to 6, Mode from `status`, Language from `language`, in that
fixed order) only when the field is absent. -/
theorem technicalSpecs_amended (c : CourseDetail) (l : List TechnicalSpec) :
    (c.technicalSpecs = some l → technicalSpecsProj (some c) = l) ∧
    (c.technicalSpecs = none →
      technicalSpecsProj (some c) =
        [ { label := "Duration"
          , value := toString (phaseLenOrSix c) ++ " Months"
          , icon := durationIcon }
        , { label := "Mode", value := statusToString c.status, icon := modeIcon }
        , { label := "Language", value := c.language, icon := languageIcon } ]) := by
  constructor
  · intro h
    simp [technicalSpecsProj, h]
  · intro h
    simp [technicalSpecsProj, h, fallbackSpecs]

/-- Witness for C9's amended claim: a record without the field gets the
fallback triple, labels in the fixed Duration/Mode/Language order. -/
theorem technicalSpecs_amended_witness :
    courseNoSpecs.technicalSpecs = none ∧
    technicalSpecsProj (some courseNoSpecs) =
      [ { label := "Duration", value := "6 Months", icon := durationIcon }
      , { label := "Mode", value := "Hybrid", icon := modeIcon }
      , { label := "Language", value := "English", icon := languageIcon } ] := by
  refine ⟨rfl, ?_⟩
  rw [(technicalSpecs_amended courseNoSpecs []).2 rfl]
  rfl

end WorknAI
